import Mathlib

/-!
# Verification of the CV-generator core against its specification

A shallow embedding, over `List Char`, of the string-processing core of the
CV/cover-letter generator: the output sanitizer (`_clean_output` in
`utils/gemini_client.py`), the mode selection and prompt construction in
`generate_cv_latex`, the document extractor dispatch (`parse_cv` in
`utils/cv_parser.py`) and the LaTeX compilation wrapper
(`compile_latex_to_pdf` in `utils/latex_handler.py`).

Python strings are modelled as `List Char`.  Python's `str.strip()` is
modelled over the ASCII whitespace characters it strips; `str.lower()` is
modelled as ASCII case folding (the case-insensitive comparisons in the
source only involve ASCII keywords).  Python exceptions are modelled with
`Except`: an `Except.error` value is a raised exception escaping the
function, an `Except.ok` value is a normal return.  The two external
side-effecting collaborators (the format-specific extraction libraries and
the `pdflatex` binary plus filesystem) are modelled as environment records
listing the outcomes the external world produces.
-/

namespace CvGen

/-! ## String primitives -/

/-- The whitespace predicate of Python's `str.strip()` (ASCII part):
space, tab, newline, carriage return, vertical tab, form feed. -/
def isPySpace (c : Char) : Bool :=
  c = ' ' || c = '\t' || c = '\n' || c = '\r' || c = '\x0b' || c = '\x0c'

/-- Python `text.strip()`: remove leading and trailing whitespace. -/
def strip (s : List Char) : List Char :=
  List.rdropWhile isPySpace (List.dropWhile isPySpace s)

/-- The backtick character (U+0060). -/
def backtick : Char := Char.ofNat 96

/-- The triple-backtick fence marker that `_clean_output` removes. -/
def fence : List Char := [backtick, backtick, backtick]

/-- Python `needle in hay` / `hay.find(needle) != -1` for lists:
`needle` occurs as a contiguous substring of `hay`. -/
def isSubstr (needle : List Char) : List Char → Bool
  | [] => needle.isPrefixOf []
  | c :: rest => needle.isPrefixOf (c :: rest) || isSubstr needle rest

/-- Python `text.lower()` restricted to ASCII case folding. -/
def pyLower (c : Char) : Char :=
  if 'A' ≤ c ∧ c ≤ 'Z' then Char.ofNat (c.toNat + 32) else c

/-- Python `s.lower()` on a whole string (ASCII case folding). -/
def lowerStr (s : List Char) : List Char := s.map pyLower

/-- Python `s.split(sep)` for a one-character separator: the list of
chunks between occurrences of `sep` (empty chunks included, result is
never the empty list). -/
def pySplit (sep : Char) : List Char → List (List Char)
  | [] => [[]]
  | c :: rest =>
    if c = sep then [] :: pySplit sep rest
    else
      match pySplit sep rest with
      | [] => [[c]]
      | l :: ls => (c :: l) :: ls

/-! ## Output sanitizer (`GeminiClient._clean_output`, gemini_client.py 31-55) -/

/-- Python `text.replace("```", "")`: scan left to right, removing each
non-overlapping occurrence of three consecutive backticks. -/
def removeFence : List Char → List Char
  | [] => []
  | [c] => [c]
  | [c, d] => [c, d]
  | c :: d :: e :: rest =>
    if c = backtick ∧ d = backtick ∧ e = backtick then removeFence rest
    else c :: removeFence (d :: e :: rest)

/-- First phase of `_clean_output` (gemini_client.py 43-49): if the text
starts with a fence, drop up to the first newline (inclusive of the fence
line's content) and strip; if there is no newline, delete every fence
occurrence and strip. -/
def dropOpenFence (text : List Char) : List Char :=
  if fence.isPrefixOf text then
    match text.findIdx? (fun c => c == '\n') with
    | some i => strip (text.drop i)
    | none => strip (removeFence text)
  else text

/-- Second phase of `_clean_output` (gemini_client.py 52-53): if the text
ends with a fence, drop the last three characters and strip. -/
def dropCloseFence (text : List Char) : List Char :=
  if fence.isSuffixOf text then strip (List.rdrop text 3) else text

/-- `GeminiClient._clean_output` (gemini_client.py 31-55): strip, then
remove an opening fence line, then remove a closing fence. -/
def clean (s : List Char) : List Char :=
  dropCloseFence (dropOpenFence (strip s))

/-! ## Mode selection and prompt construction (`generate_cv_latex`,
gemini_client.py 57-155) -/

/-- Keyword searched for by the conservative branch (gemini_client.py 86). -/
def conservativeKw : List Char := "conservative".data

/-- Keyword searched for by the aggressive branch (gemini_client.py 96). -/
def aggressiveKw : List Char := "aggressive".data

/-- Instruction block assigned in the conservative branch
(gemini_client.py 87-95). -/
def conservativeBlock : List Char :=
  ("\nENHANCEMENT MODE: CONSERVATIVE (Styling Only)\n- Keep ALL content from the original CV exactly as written\n- ONLY improve the LaTeX formatting, layout, and visual styling\n- Do NOT add, remove, or modify any text content\n- Do NOT add new skills, experiences, or achievements\n- Focus on making the existing content look more professional and well-organized\n- Use better typography, spacing, and visual hierarchy\n").data

/-- Instruction block assigned in the aggressive branch
(gemini_client.py 97-107). -/
def aggressiveBlock : List Char :=
  ("\nENHANCEMENT MODE: AGGRESSIVE (Maximum Impact)\n- Optimize every aspect of the CV for maximum impact\n- Use powerful action verbs and compelling language\n- Quantify achievements wherever possible (add realistic metrics if implied)\n- Highlight transferable skills that match the job requirements\n- Expand bullet points to showcase impact and results\n- Add relevant keywords from the job description naturally\n- Present experiences in the most impressive way while staying truthful\n- Make the candidate appear as the perfect fit for this role\n").data

/-- Instruction block assigned in the default (balanced) branch
(gemini_client.py 108-118). -/
def balancedBlock : List Char :=
  ("\nENHANCEMENT MODE: BALANCED (Add Relevant Details)\n- Enhance the CV by adding relevant keywords from the job description\n- Expand on existing experiences to highlight relevant skills\n- Add context and details that are implied but not explicitly stated\n- Emphasize transferable skills and relevant achievements\n- Keep all content honest and based on the original CV\n- Improve clarity and impact of existing bullet points\n- Do NOT fabricate experiences or skills not present in the original\n").data

/-- Mode-instruction selection (gemini_client.py 86-118): case-insensitive
substring tests, conservative first, then aggressive, else balanced. -/
def modeInstructions (enhancement_mode : List Char) : List Char :=
  if isSubstr conservativeKw (lowerStr enhancement_mode) then conservativeBlock
  else if isSubstr aggressiveKw (lowerStr enhancement_mode) then aggressiveBlock
  else balancedBlock

/-- Header prepended to a supplied template (gemini_client.py 81). -/
def tplHeader : List Char := "\n\nUse this LaTeX template structure:\n".data

/-- Template instruction (gemini_client.py 80-83): empty when no template
is supplied (Python truthiness: `None` and the empty string both yield the
empty instruction). -/
def templateInstruction (latex_template : Option (List Char)) : List Char :=
  match latex_template with
  | some t => if t = [] then [] else tplHeader ++ t
  | none => []

/-- Literal prompt segment before the original CV (gemini_client.py 120-125). -/
def cvSeg1 : List Char :=
  ("You are an expert CV/resume writer and LaTeX specialist. \n\nGiven the following information:\n\nORIGINAL CV:\n").data

/-- Literal prompt segment between CV and job description. -/
def cvSeg2 : List Char := "\n\nJOB DESCRIPTION:\n".data

/-- Literal prompt segment between job description and company name. -/
def cvSeg3 : List Char := "\n\nCOMPANY NAME:\n".data

/-- Literal prompt segment between company name and output language. -/
def cvSeg4 : List Char := "\n\nOUTPUT LANGUAGE:\n".data

/-- Literal prompt segment between output language and mode instructions. -/
def cvSeg5 : List Char := "\n\n".data

/-- Literal prompt segment between mode instructions and the second
occurrence of the language (gemini_client.py 138-141). -/
def cvSeg6 : List Char :=
  ("\n\nYour task:\n1. Analyze the job description and identify key requirements, skills, and qualifications\n2. Tailor the original CV according to the enhancement mode specified above\n3. Generate a complete, professional LaTeX document for the CV in the specified OUTPUT LANGUAGE (").data

/-- Literal prompt segment after the second language occurrence
(gemini_client.py 141-144). -/
def cvSeg7 : List Char :=
  (")\n4. Use a modern, clean CV template (like moderncv or a custom professional design)\n5. Emphasize achievements and experiences most relevant to the job\n6. Ensure the LaTeX code is complete and compilable").data

/-- Literal closing prompt segment (gemini_client.py 146-152). -/
def cvSeg8 : List Char :=
  ("\n\nCRITICAL: To avoid font errors, ALWAYS include these two lines in the preamble:\n\\usepackage[T1]{fontenc}\n\\usepackage{lmodern}\n\nCRITICAL: Output ONLY the raw text. Do NOT wrap the output in markdown code blocks (no triple backticks).\nStart directly with \\documentclass and end with \\end{document}.\n").data

/-- The CV prompt rendered by `generate_cv_latex` (gemini_client.py
120-152): the f-string concatenation of literal segments and inputs. -/
def cvPrompt (original_cv job_description company_name : List Char)
    (latex_template : Option (List Char))
    (enhancement_mode language : List Char) : List Char :=
  cvSeg1 ++ original_cv ++ cvSeg2 ++ job_description ++ cvSeg3 ++ company_name
    ++ cvSeg4 ++ language ++ cvSeg5 ++ modeInstructions enhancement_mode
    ++ cvSeg6 ++ language ++ cvSeg7 ++ templateInstruction latex_template
    ++ cvSeg8

/-! ## Document extractor dispatch (`parse_cv`, cv_parser.py 12-36) -/

/-- An uploaded file: its declared name, together with the outcome each
format-specific extraction routine (the external PyPDF2 / python-docx /
UTF-8 decode calls in `parse_pdf` / `parse_docx` / `parse_txt`) would
produce on its contents — `Except.error` is a raised library fault. -/
structure UploadedFile where
  name : List Char
  pdfExtract : Except (List Char) (List Char)
  docxExtract : Except (List Char) (List Char)
  txtExtract : Except (List Char) (List Char)

/-- Extension string for PDF dispatch. -/
def pdfExt : List Char := "pdf".data

/-- Extension string for DOCX dispatch. -/
def docxExt : List Char := "docx".data

/-- Extension string for DOC dispatch. -/
def docExt : List Char := "doc".data

/-- Extension string for TXT dispatch. -/
def txtExt : List Char := "txt".data

/-- Python `uploaded_file.name.split('.')[-1].lower()` (cv_parser.py 23):
the lowercased part after the last dot (the whole name when it has no
dot, since `split` always returns a non-empty list). -/
def fileExtension (name : List Char) : List Char :=
  lowerStr ((pySplit '.' name).getLastD [])

/-- First error-message piece of the wrapped exception (cv_parser.py 36). -/
def errParsing1 : List Char := "Error parsing ".data

/-- Second error-message piece of the wrapped exception (cv_parser.py 36). -/
def errParsing2 : List Char := " file: ".data

/-- The extension dispatch inside the `try` block (cv_parser.py 25-32):
pdf, docx/doc and txt go to their extractors, anything else returns
`None` (modelled `Except.ok none`); an extractor fault propagates. -/
def dispatchExtract (f : UploadedFile) : Except (List Char) (Option (List Char)) :=
  if fileExtension f.name = pdfExt then f.pdfExtract.map some
  else if fileExtension f.name = docxExt ∨ fileExtension f.name = docExt then
    f.docxExtract.map some
  else if fileExtension f.name = txtExt then f.txtExtract.map some
  else Except.ok none

/-- `parse_cv` (cv_parser.py 12-36): run the dispatch; on a fault, catch
it and re-raise a new exception with the formatted message
`"Error parsing {ext} file: {fault}"` (cv_parser.py 34-36). -/
def parse_cv (f : UploadedFile) : Except (List Char) (Option (List Char)) :=
  match dispatchExtract f with
  | Except.ok v => Except.ok v
  | Except.error e =>
    Except.error (errParsing1 ++ fileExtension f.name ++ errParsing2 ++ e)

/-! ## LaTeX compilation wrapper (`compile_latex_to_pdf`,
latex_handler.py 30-84) -/

/-- Outcome of one `subprocess.run` invocation of `pdflatex`: it either
completed (with some exit code, which the source never inspects), raised
`TimeoutExpired`, raised `FileNotFoundError`, or raised some other
exception. -/
inductive RunOutcome where
  | completed (exitCode : Int)
  | timedOut
  | notFound
  | raised (msg : List Char)

/-- The external world of one `compile_latex_to_pdf` call: whether writing
`document.tex` raises, the outcomes of the two compiler invocations, and
the scratch-directory state the invocations leave behind (whether
`document.pdf` exists and its bytes, whether `document.log` exists and its
content). -/
structure LatexEnv where
  writeError : Option (List Char)
  run1 : RunOutcome
  run2 : RunOutcome
  pdfExists : Bool
  pdfBytes : List Nat
  logExists : Bool
  logContent : List Char

/-- The tuple returned by `compile_latex_to_pdf`
(success, pdf_bytes, error_message). -/
structure CompilationResult where
  success : Bool
  pdf_bytes : Option (List Nat)
  error_message : Option (List Char)

/-- Timeout diagnostic (latex_handler.py 80). -/
def timeoutMsg : List Char := "LaTeX compilation timed out (30s limit)".data

/-- Missing-binary diagnostic (latex_handler.py 82). -/
def notFoundMsg : List Char :=
  ("pdflatex not found. Please install a LaTeX distribution (MiKTeX, TeX Live, or MacTeX)").data

/-- Prefix of the generic exception diagnostic (latex_handler.py 84). -/
def compileErrPrefix : List Char := "Compilation error: ".data

/-- Generic failure diagnostic (latex_handler.py 68). -/
def pdfFailedMsg : List Char := "PDF compilation failed.".data

/-- The compiler's error-marker character, as the one-character string of
Python `line.startswith('!')` (latex_handler.py 74). -/
def bangMark : List Char := "!".data

/-- Python `log_content.split('\n')` (latex_handler.py 73). -/
def splitLines (s : List Char) : List (List Char) := pySplit '\n' s

/-- The log scan (latex_handler.py 68-76): the first line starting with
the error marker, defaulting to the generic failure message. -/
def scanLog (lines : List (List Char)) : List Char :=
  match lines.find? (fun l => bangMark.isPrefixOf l) with
  | some l => l
  | none => pdfFailedMsg

/-- `compile_latex_to_pdf` (latex_handler.py 30-84), paired with the list
of per-invocation timeout arguments actually passed to `subprocess.run`
(one entry per invocation performed, latex_handler.py 52-58).  The write
and the two loop iterations run in order inside the `try`; the first
exception aborts to the matching handler; otherwise success is decided by
`pdf_file.exists()` and failure extracts the diagnostic from the log. -/
def compile_latex_to_pdf (env : LatexEnv) : List Nat × CompilationResult :=
  match env.writeError with
  | some e => ([], ⟨false, none, some (compileErrPrefix ++ e)⟩)
  | none =>
    match env.run1 with
    | RunOutcome.timedOut => ([30], ⟨false, none, some timeoutMsg⟩)
    | RunOutcome.notFound => ([30], ⟨false, none, some notFoundMsg⟩)
    | RunOutcome.raised e => ([30], ⟨false, none, some (compileErrPrefix ++ e)⟩)
    | RunOutcome.completed _ =>
      match env.run2 with
      | RunOutcome.timedOut => ([30, 30], ⟨false, none, some timeoutMsg⟩)
      | RunOutcome.notFound => ([30, 30], ⟨false, none, some notFoundMsg⟩)
      | RunOutcome.raised e => ([30, 30], ⟨false, none, some (compileErrPrefix ++ e)⟩)
      | RunOutcome.completed _ =>
        if env.pdfExists then ([30, 30], ⟨true, some env.pdfBytes, none⟩)
        else
          ([30, 30],
            ⟨false, none,
              some (if env.logExists then scanLog (splitLines env.logContent)
                else pdfFailedMsg)⟩)

/-! ## Concrete inputs used by witnesses and counterexamples -/

/-- Counterexample input for claim C1: two fence markers, at the start and
in the middle of the second line. -/
def cexC1 : List Char := "``` \n```abc".data

/-- The standard fenced block from the specification's example. -/
def fencedBody : List Char := "```latex\nBODY\n```".data

/-- The bare body from the specification's example. -/
def bodyOnly : List Char := "BODY".data

/-- Counterexample input for claim C2: fence-free but with leading
whitespace. -/
def cexC2 : List Char := " BODY".data

/-- A fence-free, already-stripped sample text. -/
def sampleNoFence : List Char := "hello world".data

/-- Witness input for claim C10: starts with a fence and has no newline. -/
def sampleOneLineFenced : List Char := "```abc```".data

/-- Counterexample mode string for claim C5: contains both keywords. -/
def cexMode : List Char := "aggressive conservative".data

/-- The conservative radio-button label from the UI (app.py 239). -/
def uiConservative : List Char := "🎨 Conservative (Styling Only)".data

/-- The balanced radio-button label from the UI (app.py 240). -/
def uiBalanced : List Char := "⚖️ Balanced (Add Relevant Details)".data

/-- The aggressive radio-button label from the UI (app.py 241). -/
def uiAggressive : List Char := "🚀 Aggressive (Maximum Impact)".data

/-- The language string of the specification's scenario. -/
def englishLang : List Char := "English".data

/-- A pdf upload whose PDF extraction raises a fault. -/
def filePdfBad : UploadedFile :=
  ⟨"cv.pdf".data, Except.error "corrupt".data, Except.ok [], Except.ok []⟩

/-- An upload with an unsupported extension. -/
def filePng : UploadedFile :=
  ⟨"photo.PNG".data, Except.ok [], Except.ok [], Except.ok []⟩

/-- An environment where both compiler invocations complete and the PDF
artifact exists. -/
def envOk : LatexEnv :=
  ⟨none, RunOutcome.completed 0, RunOutcome.completed 0, true, [37, 80], false, []⟩

/-- A log content with an error-marker line. -/
def logWithBang : List Char :=
  "This is pdfTeX\n! Undefined control sequence.\nl.5 \\foo".data

/-- The error-marker line inside `logWithBang`. -/
def bangLine : List Char := "! Undefined control sequence.".data

/-- An environment where both invocations complete, no PDF is produced,
and the log contains an error-marker line. -/
def envFailLog : LatexEnv :=
  ⟨none, RunOutcome.completed 1, RunOutcome.completed 1, false, [], true, logWithBang⟩

/-- An environment where the first compiler invocation raises
`TimeoutExpired`: the loop aborts before the second invocation. -/
def envT1 : LatexEnv :=
  ⟨none, RunOutcome.timedOut, RunOutcome.completed 0, false, [], false, []⟩

/-- An environment where the first invocation completes and produces the
PDF artifact, but the second invocation raises `TimeoutExpired`. -/
def envT2 : LatexEnv :=
  ⟨none, RunOutcome.completed 0, RunOutcome.timedOut, true, [1, 2], false, []⟩

end CvGen

namespace CvGen

/-! ## Basic lemmas about `strip` -/

theorem strip_idem (s : List Char) : strip (strip s) = strip s := by
  unfold strip
  set u := List.dropWhile isPySpace s with hu
  have h1 : List.dropWhile isPySpace (List.rdropWhile isPySpace u)
      = List.rdropWhile isPySpace u := by
    cases hv : List.rdropWhile isPySpace u with
    | nil => simp
    | cons a v' =>
      have hpre : a :: v' <+: u := hv ▸ List.rdropWhile_prefix isPySpace u
      rcases hpre with ⟨t, ht⟩
      have hdu : List.dropWhile isPySpace u = u := List.dropWhile_idempotent isPySpace s
      have ha : ¬ (isPySpace a = true) := by
        intro ha
        rw [← ht] at hdu
        simp only [List.cons_append] at hdu
        rw [List.dropWhile_cons_of_pos ha] at hdu
        have hlen := congrArg List.length hdu
        rw [List.length_cons] at hlen
        have hle := (List.dropWhile_sublist (l := v' ++ t) isPySpace).length_le
        omega
      rw [List.dropWhile_cons_of_neg ha]
  rw [h1, List.rdropWhile_idempotent]

theorem strip_infix_self (s : List Char) : strip s <:+: s :=
  (List.rdropWhile_prefix isPySpace (List.dropWhile isPySpace s)).isInfix.trans
    (List.dropWhile_suffix isPySpace).isInfix

/-! ## `isSubstr` agrees with `List.IsInfix` -/

theorem isSubstr_correct (n h : List Char) : isSubstr n h = true ↔ n <:+: h := by
  induction h with
  | nil =>
    simp [isSubstr, List.infix_nil]
  | cons a t ih =>
    rw [isSubstr]
    simp only [Bool.or_eq_true, List.isPrefixOf_iff_prefix, ih, List.infix_cons_iff]

theorem not_prefix_of_not_substr {n h : List Char} (hn : isSubstr n h = false) :
    n.isPrefixOf h = false := by
  rw [← Bool.not_eq_true, List.isPrefixOf_iff_prefix]
  intro hp
  rw [← Bool.not_eq_true, isSubstr_correct] at hn
  exact hn hp.isInfix

theorem not_suffix_of_not_substr {n h : List Char} (hn : isSubstr n h = false) :
    n.isSuffixOf h = false := by
  rw [← Bool.not_eq_true, List.isSuffixOf_iff_suffix]
  intro hp
  rw [← Bool.not_eq_true, isSubstr_correct] at hn
  exact hn hp.isInfix

theorem not_substr_mono {n h h' : List Char} (hinf : h' <:+: h)
    (hn : isSubstr n h = false) : isSubstr n h' = false := by
  rw [← Bool.not_eq_true, isSubstr_correct] at hn ⊢
  exact fun hc => hn (hc.trans hinf)

/-! ## `clean` output is always stripped -/

theorem dropOpenFence_stripped (s : List Char) :
    strip (dropOpenFence (strip s)) = dropOpenFence (strip s) := by
  unfold dropOpenFence
  split
  · split <;> exact strip_idem _
  · exact strip_idem s

theorem dropCloseFence_stripped {t : List Char} (h : strip t = t) :
    strip (dropCloseFence t) = dropCloseFence t := by
  unfold dropCloseFence
  split
  · exact strip_idem _
  · exact h

theorem clean_stripped (s : List Char) : strip (clean s) = clean s :=
  dropCloseFence_stripped (dropOpenFence_stripped s)

/-- If a stripped text contains no fence, both fence-removal phases (and
hence `clean`) leave it unchanged. -/
theorem clean_eq_of_stripped_no_fence {t : List Char} (hs : strip t = t)
    (hn : isSubstr fence t = false) : clean t = t := by
  unfold clean
  rw [hs]
  have h1 : dropOpenFence t = t := by
    unfold dropOpenFence
    rw [not_prefix_of_not_substr hn]
    simp
  rw [h1]
  unfold dropCloseFence
  rw [not_suffix_of_not_substr hn]
  simp

/-! ## `removeFence` really removes every fence occurrence -/

theorem removeFence_cons_ne (x : Char) (xs : List Char) (hx : ¬ x = backtick) :
    removeFence (x :: xs) = x :: removeFence xs := by
  cases xs with
  | nil => rfl
  | cons y ys =>
    cases ys with
    | nil => rfl
    | cons z rest => simp [removeFence, hx]

theorem removeFence_not_two (l : List Char) (h : ¬ [backtick, backtick] <+: l) :
    ¬ [backtick, backtick] <+: removeFence l := by
  cases l with
  | nil => simp [removeFence] at h ⊢
  | cons x r =>
    cases r with
    | nil =>
      intro hp
      have := hp.length_le
      simp [removeFence] at this
    | cons y r' =>
      have hxy : ¬ (x = backtick ∧ y = backtick) := by
        rintro ⟨hx, hy⟩
        exact h (by subst hx; subst hy; exact ⟨r', rfl⟩)
      by_cases hx : x = backtick
      · have hy : ¬ y = backtick := fun hy => hxy ⟨hx, hy⟩
        cases r' with
        | nil =>
          intro hp
          rcases List.cons_prefix_cons.mp hp with ⟨hc1, hp2⟩
          rcases List.cons_prefix_cons.mp hp2 with ⟨hc2, _⟩
          exact hy hc2.symm
        | cons z rest =>
          have hred : removeFence (x :: y :: z :: rest)
              = x :: y :: removeFence (z :: rest) := by
            have h1 : removeFence (x :: y :: z :: rest)
                = x :: removeFence (y :: z :: rest) := by
              simp [removeFence, hy]
            rw [h1, removeFence_cons_ne y (z :: rest) hy]
          rw [hred]
          intro hp
          rcases List.cons_prefix_cons.mp hp with ⟨hc1, hp2⟩
          rcases List.cons_prefix_cons.mp hp2 with ⟨hc2, _⟩
          exact hy hc2.symm
      · rw [removeFence_cons_ne x (y :: r') hx]
        intro hp
        rcases List.cons_prefix_cons.mp hp with ⟨hc1, _⟩
        exact hx hc1.symm

theorem removeFence_no_fence (l : List Char) :
    isSubstr fence (removeFence l) = false := by
  rw [← Bool.not_eq_true, isSubstr_correct]
  induction l using removeFence.induct with
  | case1 => simp [removeFence, fence]
  | case2 c =>
    intro h
    have := h.length_le
    simp [removeFence, fence] at this
  | case3 c d =>
    intro h
    have := h.length_le
    simp [removeFence, fence] at this
  | case4 c d e rest hcond ih =>
    have hred : removeFence (c :: d :: e :: rest) = removeFence rest := by
      simp [removeFence, hcond]
    rw [hred]
    exact ih
  | case5 c d e rest hcond ih =>
    have hred : removeFence (c :: d :: e :: rest)
        = c :: removeFence (d :: e :: rest) := by
      simp only [removeFence, if_neg hcond]
    rw [hred]
    intro hinf
    rcases List.infix_cons_iff.mp hinf with hp | hw
    · rw [fence] at hp
      rcases List.cons_prefix_cons.mp hp with ⟨hc, hp2⟩
      have h2 : ¬ [backtick, backtick] <+: d :: e :: rest := by
        intro hde
        rcases List.cons_prefix_cons.mp hde with ⟨hd, hde2⟩
        rcases List.cons_prefix_cons.mp hde2 with ⟨he, _⟩
        exact hcond ⟨hc.symm, hd.symm, he.symm⟩
      exact removeFence_not_two _ h2 hp2
    · exact ih hw

/-! ## Infix helpers for the prompt -/

theorem infix_prepend (a : List Char) {l t : List Char} (h : l <:+: t) :
    l <:+: a ++ t :=
  h.trans (List.suffix_append a t).isInfix

theorem infix_start (l t : List Char) : l <:+: l ++ t :=
  (List.prefix_append l t).isInfix

/-- If the input contains no fence, `clean` reduces to `strip`. -/
theorem clean_eq_strip_of_no_fence {x : List Char}
    (h : isSubstr fence x = false) : clean x = strip x := by
  have h2 : isSubstr fence (strip x) = false := not_substr_mono (strip_infix_self x) h
  have h3 : clean (strip x) = strip x :=
    clean_eq_of_stripped_no_fence (strip_idem x) h2
  rw [← h3]
  unfold clean
  rw [strip_idem]

/-! ## Claim C1 -/

/-- C1 (counterexample): `clean` is not idempotent on every input with at
most two fence markers: on `cexC1 = "``` \n```abc"` (exactly two fence
occurrences) a second `clean` removes the fence that the first one
uncovered. -/
theorem claim1_counterexample : clean (clean cexC1) ≠ clean cexC1 := by decide

/-- C1 (amended): the output sanitizer `clean` is idempotent on every
input `x` whose cleaned result contains no fence marker:
`clean (clean x) = clean x`. -/
theorem claim1_clean_idempotent (x : List Char)
    (h : isSubstr fence (clean x) = false) : clean (clean x) = clean x :=
  clean_eq_of_stripped_no_fence (clean_stripped x) h

/-- C1 (witness): the amended idempotence applied to the concrete fenced
block `"```latex\nBODY\n```"`. -/
theorem claim1_witness :
    isSubstr fence (clean fencedBody) = false
    ∧ clean (clean fencedBody) = clean fencedBody :=
  ⟨by decide, claim1_clean_idempotent fencedBody (by decide)⟩

/-! ## Claim C2 -/

/-- C2 (counterexample): `clean` does not return every fence-free input
unchanged: `" BODY"` contains no fence marker but `clean` trims its
leading space. -/
theorem claim2_counterexample :
    isSubstr fence cexC2 = false ∧ clean cexC2 ≠ cexC2 := by decide

/-- C2 (amended): on every input containing no fence marker, `clean`
returns the input unchanged apart from trimming surrounding whitespace
(`clean x = strip x`); in particular the specification's two concrete
examples hold: `clean "```latex\nBODY\n```" = "BODY"` and
`clean "BODY" = "BODY"`. -/
theorem claim2_clean_no_fence (x : List Char) :
    (isSubstr fence x = false → clean x = strip x)
    ∧ clean fencedBody = bodyOnly ∧ clean bodyOnly = bodyOnly :=
  ⟨fun h => clean_eq_strip_of_no_fence h, by decide, by decide⟩

/-- C2 (witness): the amended statement applied to the concrete fence-free
text `"hello world"`. -/
theorem claim2_witness :
    isSubstr fence sampleNoFence = false
    ∧ clean sampleNoFence = strip sampleNoFence :=
  ⟨by decide, (claim2_clean_no_fence sampleNoFence).1 (by decide)⟩

/-! ## Claim C10 -/

/-- C10: on every input that, after stripping surrounding whitespace,
starts with a fence marker and contains no newline, `clean` deletes every
fence occurrence anywhere in the text (via the `replace` branch) and trims
the result; consequently the result contains no fence marker at all. -/
theorem claim10_one_line_fence (x : List Char)
    (h1 : fence.isPrefixOf (strip x) = true)
    (h2 : (strip x).findIdx? (fun c => c == '\n') = none) :
    clean x = strip (removeFence (strip x))
    ∧ isSubstr fence (clean x) = false := by
  have hopen : dropOpenFence (strip x) = strip (removeFence (strip x)) := by
    unfold dropOpenFence
    rw [h1, h2]
    simp
  have hnf : isSubstr fence (strip (removeFence (strip x))) = false :=
    not_substr_mono (strip_infix_self _) (removeFence_no_fence _)
  have hclose : dropCloseFence (strip (removeFence (strip x)))
      = strip (removeFence (strip x)) := by
    unfold dropCloseFence
    rw [not_suffix_of_not_substr hnf]
    simp
  have hcx : clean x = strip (removeFence (strip x)) := by
    unfold clean
    rw [hopen, hclose]
  exact ⟨hcx, hcx ▸ hnf⟩

/-- C10 (witness): the one-line-fence behavior on the concrete input
`"```abc```"`, whose every backtick is removed. -/
theorem claim10_witness :
    fence.isPrefixOf (strip sampleOneLineFenced) = true
    ∧ (strip sampleOneLineFenced).findIdx? (fun c => c == '\n') = none
    ∧ clean sampleOneLineFenced = strip (removeFence (strip sampleOneLineFenced))
    ∧ isSubstr fence (clean sampleOneLineFenced) = false :=
  ⟨by decide, by decide,
   (claim10_one_line_fence sampleOneLineFenced (by decide) (by decide)).1,
   (claim10_one_line_fence sampleOneLineFenced (by decide) (by decide)).2⟩

/-! ## Claim C5 -/

/-- C5 (counterexample): a mode string containing "aggressive" does not
always select the aggressive block: `"aggressive conservative"` contains
"aggressive" but selects the conservative block, because the conservative
test runs first. -/
theorem claim5_counterexample :
    isSubstr aggressiveKw (lowerStr cexMode) = true
    ∧ modeInstructions cexMode ≠ aggressiveBlock := by
  constructor
  · decide
  · decide

/-- C5 (amended): mode-instruction selection is by case-insensitive
substring match with the conservative test taking priority: a mode
containing "conservative" selects the conservative block; a mode
containing "aggressive" but not "conservative" selects the aggressive
block; every mode containing neither selects the balanced block. -/
theorem claim5_mode_selection (m : List Char) :
    (isSubstr conservativeKw (lowerStr m) = true →
      modeInstructions m = conservativeBlock)
    ∧ (isSubstr conservativeKw (lowerStr m) = false →
        isSubstr aggressiveKw (lowerStr m) = true →
        modeInstructions m = aggressiveBlock)
    ∧ (isSubstr conservativeKw (lowerStr m) = false →
        isSubstr aggressiveKw (lowerStr m) = false →
        modeInstructions m = balancedBlock) := by
  refine ⟨fun h => ?_, fun h1 h2 => ?_, fun h1 h2 => ?_⟩ <;>
    simp [modeInstructions, *]

/-- C5 (witness): the selection evaluated on the three actual UI mode
labels, which are mixed-case supersets of the keywords. -/
theorem claim5_witness :
    modeInstructions uiConservative = conservativeBlock
    ∧ modeInstructions uiAggressive = aggressiveBlock
    ∧ modeInstructions uiBalanced = balancedBlock :=
  ⟨(claim5_mode_selection uiConservative).1 (by decide),
   (claim5_mode_selection uiAggressive).2.1 (by decide) (by decide),
   (claim5_mode_selection uiBalanced).2.2 (by decide) (by decide)⟩

/-! ## Claim C6 -/

/-- C6: for every generation request, the rendered CV prompt contains as
verbatim contiguous substrings the original CV text, the job description,
the company name, the selected mode-instruction block and the language
string; and in the specification's scenario (mode "aggressive", language
"English") it contains the aggressive block and the literal "English". -/
theorem claim6_prompt_contains (cv jd company : List Char)
    (tpl : Option (List Char)) (mode lang : List Char) :
    cv <:+: cvPrompt cv jd company tpl mode lang
    ∧ jd <:+: cvPrompt cv jd company tpl mode lang
    ∧ company <:+: cvPrompt cv jd company tpl mode lang
    ∧ modeInstructions mode <:+: cvPrompt cv jd company tpl mode lang
    ∧ lang <:+: cvPrompt cv jd company tpl mode lang
    ∧ aggressiveBlock <:+: cvPrompt cv jd company tpl aggressiveKw englishLang
    ∧ englishLang <:+: cvPrompt cv jd company tpl aggressiveKw englishLang := by
  have hc : isSubstr conservativeKw (lowerStr aggressiveKw) = false := by decide
  have ha : isSubstr aggressiveKw (lowerStr aggressiveKw) = true := by decide
  have hsel : modeInstructions aggressiveKw = aggressiveBlock := by
    simp [modeInstructions, hc, ha]
  refine ⟨?_, ?_, ?_, ?_, ?_, ?_, ?_⟩ <;>
      simp only [cvPrompt, List.append_assoc]
  · exact infix_prepend cvSeg1 (infix_start _ _)
  · exact infix_prepend cvSeg1 (infix_prepend cv (infix_prepend cvSeg2
      (infix_start _ _)))
  · exact infix_prepend cvSeg1 (infix_prepend cv (infix_prepend cvSeg2
      (infix_prepend jd (infix_prepend cvSeg3 (infix_start _ _)))))
  · exact infix_prepend cvSeg1 (infix_prepend cv (infix_prepend cvSeg2
      (infix_prepend jd (infix_prepend cvSeg3 (infix_prepend company
      (infix_prepend cvSeg4 (infix_prepend lang (infix_prepend cvSeg5
      (infix_start _ _)))))))))
  · exact infix_prepend cvSeg1 (infix_prepend cv (infix_prepend cvSeg2
      (infix_prepend jd (infix_prepend cvSeg3 (infix_prepend company
      (infix_prepend cvSeg4 (infix_start _ _)))))))
  · rw [← hsel]
    exact infix_prepend cvSeg1 (infix_prepend cv (infix_prepend cvSeg2
      (infix_prepend jd (infix_prepend cvSeg3 (infix_prepend company
      (infix_prepend cvSeg4 (infix_prepend englishLang (infix_prepend cvSeg5
      (infix_start _ _)))))))))
  · exact infix_prepend cvSeg1 (infix_prepend cv (infix_prepend cvSeg2
      (infix_prepend jd (infix_prepend cvSeg3 (infix_prepend company
      (infix_prepend cvSeg4 (infix_start _ _)))))))

/-! ## Claim C3 -/

/-- C3 (counterexample): an extraction fault is not converted into a
non-exceptional failure result: on a pdf upload whose PDF extraction
raises "corrupt", `parse_cv` itself raises (returns `Except.error`), with
the wrapped message — the exception escapes `parse_cv` to its caller. -/
theorem claim3_counterexample :
    parse_cv filePdfBad = Except.error "Error parsing pdf file: corrupt".data := by
  rfl

/-- C3 (amended): `parse_cv` catches every fault raised by the
format-specific extraction and re-raises it as a single wrapped exception
whose message is `"Error parsing {ext} file: {fault}"`, deliberately
propagated for the UI caller (app.py 190-201) to catch and report; a
non-faulting dispatch is returned unchanged. -/
theorem claim3_fault_wrapped (f : UploadedFile) :
    (∀ e, dispatchExtract f = Except.error e →
      parse_cv f = Except.error
        (errParsing1 ++ fileExtension f.name ++ errParsing2 ++ e))
    ∧ (∀ v, dispatchExtract f = Except.ok v → parse_cv f = Except.ok v) := by
  constructor
  · intro e he
    simp [parse_cv, he]
  · intro v hv
    simp [parse_cv, hv]

/-- C3 (witness): the wrapping applied to the concrete faulting pdf
upload. -/
theorem claim3_witness :
    dispatchExtract filePdfBad = Except.error "corrupt".data
    ∧ parse_cv filePdfBad = Except.error
        (errParsing1 ++ fileExtension filePdfBad.name ++ errParsing2
          ++ "corrupt".data) :=
  ⟨rfl, (claim3_fault_wrapped filePdfBad).1 "corrupt".data rfl⟩

/-! ## Claim C4 -/

/-- C4: for every uploaded document whose declared extension (the
lowercased part after the last dot) is none of pdf, docx, doc, txt,
`parse_cv` returns `None` without raising. -/
theorem claim4_unsupported_extension (f : UploadedFile)
    (h1 : fileExtension f.name ≠ pdfExt) (h2 : fileExtension f.name ≠ docxExt)
    (h3 : fileExtension f.name ≠ docExt) (h4 : fileExtension f.name ≠ txtExt) :
    parse_cv f = Except.ok none := by
  simp [parse_cv, dispatchExtract, h1, h2, h3, h4]

/-- C4 (witness): the unsupported-extension behavior on the concrete
upload `"photo.PNG"` (extension "png" after lowercasing). -/
theorem claim4_witness :
    fileExtension filePng.name ≠ pdfExt
    ∧ parse_cv filePng = Except.ok none :=
  ⟨by decide,
   claim4_unsupported_extension filePng (by decide) (by decide) (by decide)
     (by decide)⟩

/-! ## Claim C7 -/

/-- C7 (counterexample): the unconditional claim fails on the exception
paths of the loop: when the first invocation raises `TimeoutExpired` the
function performs only one invocation, not two (`envT1`); and when the
first invocation completes leaving the PDF artifact in place but the
second invocation times out, the function returns success = false even
though the artifact exists, breaking the claimed iff (`envT2`). -/
theorem claim7_counterexample :
    (compile_latex_to_pdf envT1).1 ≠ [30, 30]
    ∧ envT2.pdfExists = true
    ∧ (compile_latex_to_pdf envT2).2.success = false :=
  ⟨by decide, rfl, rfl⟩

/-- C7 (amended): when the source write succeeds and both compiler
invocations complete (with arbitrary exit codes), `compile_latex_to_pdf`
performs exactly two invocations, each passing a 30-second timeout, and
returns success exactly when the PDF artifact exists in the scratch
directory — independent of the exit codes.  (When an invocation raises —
timeout or missing binary — the loop aborts early and the function
reports failure regardless of the artifact, per the counterexample.) -/
theorem claim7_two_runs_success_iff_pdf (env : LatexEnv) (c1 c2 : Int)
    (hw : env.writeError = none) (h1 : env.run1 = RunOutcome.completed c1)
    (h2 : env.run2 = RunOutcome.completed c2) :
    (compile_latex_to_pdf env).1 = [30, 30]
    ∧ (compile_latex_to_pdf env).2.success = env.pdfExists := by
  simp only [compile_latex_to_pdf, hw, h1, h2]
  cases hp : env.pdfExists <;> simp

/-- C7 (witness): the two-invocation behavior on a concrete environment
whose runs complete and whose PDF exists. -/
theorem claim7_witness :
    envOk.writeError = none
    ∧ (compile_latex_to_pdf envOk).1 = [30, 30]
    ∧ (compile_latex_to_pdf envOk).2.success = envOk.pdfExists :=
  ⟨rfl,
   (claim7_two_runs_success_iff_pdf envOk 0 0 rfl rfl rfl).1,
   (claim7_two_runs_success_iff_pdf envOk 0 0 rfl rfl rfl).2⟩

/-! ## Claim C8 -/

/-- C8: every value returned by `compile_latex_to_pdf` populates
`pdf_bytes` exactly when `success` is true and `error_message` exactly
when `success` is false. -/
theorem claim8_result_invariant (env : LatexEnv) :
    (compile_latex_to_pdf env).2.pdf_bytes.isSome
      = (compile_latex_to_pdf env).2.success
    ∧ (compile_latex_to_pdf env).2.error_message.isSome
      = !(compile_latex_to_pdf env).2.success := by
  rcases env with ⟨we, r1, r2, pe, pb, le, lc⟩
  rcases we with _ | e <;> rcases r1 with c1 | _ | _ | m1 <;>
    rcases r2 with c2 | _ | _ | m2 <;> cases pe <;>
    simp [compile_latex_to_pdf]

/-! ## Claim C9 -/

/-- C9: on a failed compilation (both invocations complete, no PDF
produced) with a log present, the diagnostic is the first log line
beginning with the error marker, verbatim; when no log line starts with
the marker, or no log exists, the diagnostic is the generic
"PDF compilation failed." message. -/
theorem claim9_log_diagnostic (env : LatexEnv) (c1 c2 : Int)
    (hw : env.writeError = none) (h1 : env.run1 = RunOutcome.completed c1)
    (h2 : env.run2 = RunOutcome.completed c2) (hp : env.pdfExists = false) :
    (∀ line, env.logExists = true →
      (splitLines env.logContent).find? (fun l => bangMark.isPrefixOf l)
        = some line →
      (compile_latex_to_pdf env).2.error_message = some line)
    ∧ (env.logExists = true →
        (splitLines env.logContent).find? (fun l => bangMark.isPrefixOf l)
          = none →
        (compile_latex_to_pdf env).2.error_message = some pdfFailedMsg)
    ∧ (env.logExists = false →
        (compile_latex_to_pdf env).2.error_message = some pdfFailedMsg) := by
  simp only [compile_latex_to_pdf, hw, h1, h2, hp]
  refine ⟨fun line hl hf => ?_, fun hl hf => ?_, fun hl => ?_⟩
  · simp [scanLog, hl, hf]
  · simp [scanLog, hl, hf]
  · simp [hl]

/-- C9 (witness): the diagnostic extraction on a concrete failing
environment whose log contains "! Undefined control sequence.". -/
theorem claim9_witness :
    (splitLines envFailLog.logContent).find? (fun l => bangMark.isPrefixOf l)
      = some bangLine
    ∧ (compile_latex_to_pdf envFailLog).2.error_message = some bangLine :=
  ⟨by decide,
   (claim9_log_diagnostic envFailLog 1 1 rfl rfl rfl rfl).1 bangLine rfl
     (by decide)⟩

end CvGen
